import Mathlib

/-!
Verification of the BMQ (BitMap Queue) CPU scheduler core
(kernel/sched/bmq.c), as a shallow embedding in Lean 4.

Pure scheduling logic is translated directly from the C source:
priority derivation, boost/deboost, the per-runqueue bitmap queue,
enqueue/dequeue/requeue, global watermark publication, time-slice
expiry handling, CPU selection, the set-scheduler validation path,
the priority-inheritance interface, yield, and the fork time-slice
split.  Machine integers are modelled as Int (the C fields involved
are int/s64 and never overflow on the values the invariants allow),
CPU masks as lists of CPU ids, and the per-priority list heads as
Lean lists.  Locking, memory barriers and the arch context switch
are outside the embedded fragment: every embedded operation models
one critical section executed under the runqueue lock.

The configuration modelled is the generic one: CONFIG_SMP with the
portable (non-x86) cpumask update path, no SCHED_SMT (the
sched_smt_present static branch is false, so the SMT tail of
update_sched_rq_watermark is not executed), and no NO_HZ_FULL.
-/

namespace BMQ

/-- Modelled from the spec: include/linux/sched/prio.h is not among the
sources.  RT priorities span 0..99 (so MAX_RT_PRIO = 100), nice spans
-20..19 (NICE_WIDTH = 40), MAX_PRIO = MAX_RT_PRIO + NICE_WIDTH. -/
def MAX_RT_PRIO : Int := 100

def MAX_USER_RT_PRIO : Int := 100

def NICE_WIDTH : Int := 40

def MAX_PRIO : Int := MAX_RT_PRIO + NICE_WIDTH

/-- Modelled from the spec: the boost adjustment bound MAX_PRIORITY_ADJ
comes from the BMQ prio.h patch, not among the sources; the spec bounds
boost_prio by a per-policy constant MAX_ADJ, whose default is 4. -/
def MAX_PRIORITY_ADJ : Int := 4

/-- Modelled from the spec: bmq_sched.h is not among the sources.  The
bitmap queue has one level per scheduler-visible priority: one shared
RT level, NICE_WIDTH plus 2*MAX_PRIORITY_ADJ normal levels, and the
idle level (the spec's L = number of queue levels). -/
def bmq_BITS : Nat := 49

def IDLE_TASK_SCHED_PRIO : Nat := bmq_BITS - 1

/-- WM_BITS, kernel/sched/bmq.c line 147. -/
def WM_BITS : Nat := bmq_BITS + 1

/-- IDLE_WM, kernel/sched/bmq.c line 148. -/
def IDLE_WM : Nat := 1

/-- Modelled from the spec: CONFIG_SCHED_TIMESLICE is a build-time
config (default 4 ms); SCHED_TIMESLICE_NS = CONFIG_SCHED_TIMESLICE
in milliseconds, kernel/sched/bmq.c line 52. -/
def SCHED_TIMESLICE_NS : Int := 4 * 1000 * 1000

/-- RESCHED_NS, kernel/sched/bmq.c line 55: reschedule if less than
this many ns of slice remain (100 us). -/
def RESCHED_NS : Int := 100 * 1000

/-- Modelled from the spec: the number of possible CPUs is a build
config; a concrete small machine with 4 CPUs is modelled. -/
def NR_CPUS : Nat := 4

/- uapi scheduling policy constants (include/uapi/linux/sched.h). -/

def SCHED_NORMAL : Int := 0

def SCHED_FIFO : Int := 1

def SCHED_RR : Int := 2

def SCHED_BATCH : Int := 3

def SCHED_IDLE : Int := 5

def SCHED_DEADLINE : Int := 6

/-- rt_policy(policy), kernel/sched/bmq.c line 47. -/
def rt_policy (policy : Int) : Bool :=
  policy = SCHED_FIFO || policy = SCHED_RR

/-- A CPU mask, modelled as the list of member CPU ids. -/
abbrev CpuMask := List Nat

/-- Scheduling view of a task (the task_struct fields bmq.c reads). -/
structure Task where
  id : Nat
  prio : Int
  static_prio : Int
  rt_priority : Int
  normal_prio : Int
  boost_prio : Int
  policy : Int
  time_slice : Int
  sched_time : Int
  last_ran : Int
  on_rq : Int
  bmq_idx : Int
  cpus_mask : CpuMask
  need_resched : Bool
  sched_reset_on_fork : Bool
  pi_top_task : Option Nat
deriving DecidableEq

instance : Inhabited Task where
  default :=
    { id := 0, prio := 0, static_prio := 0, rt_priority := 0, normal_prio := 0,
      boost_prio := 0, policy := 0, time_slice := 0, sched_time := 0,
      last_ran := 0, on_rq := 0, bmq_idx := 0, cpus_mask := [],
      need_resched := false, sched_reset_on_fork := false, pi_top_task := none }

/-- TASK_ON_RQ_QUEUED test: task_on_rq_queued(p). -/
def task_on_rq_queued (p : Task) : Bool := p.on_rq = 1

/-- rt_task(p), kernel/sched/bmq.c line 46: rt_prio(p->prio). -/
def rt_task (p : Task) : Bool := p.prio < MAX_RT_PRIO

/-- task_sched_prio, kernel/sched/bmq.c lines 213-219. -/
def task_sched_prio (p : Task) : Int :=
  if p.prio < MAX_RT_PRIO then 0
  else p.prio - MAX_RT_PRIO + p.boost_prio

/-- normal_prio, kernel/sched/bmq.c lines 894-900. -/
def normal_prio (p : Task) : Int :=
  if rt_policy p.policy then MAX_RT_PRIO - 1 - p.rt_priority
  else p.static_prio + MAX_PRIORITY_ADJ

/-- deboost_task, kernel/sched/bmq.c lines 94-98. -/
def deboost_task (p : Task) : Task :=
  if p.boost_prio < MAX_PRIORITY_ADJ then
    { p with boost_prio := p.boost_prio + 1 }
  else p

/-- boost_threshold(p), kernel/sched/bmq.c lines 71-72:
SCHED_TIMESLICE_NS shifted right by (10 - MAX_PRIORITY_ADJ - boost_prio). -/
def boost_threshold (p : Task) : Int :=
  SCHED_TIMESLICE_NS / (2 ^ (10 - MAX_PRIORITY_ADJ - p.boost_prio).toNat)

/-- boost_task, kernel/sched/bmq.c lines 74-92; rq_switch_time(rq) is
passed in as the already-computed clock difference. -/
def boost_task (p : Task) (switch_time : Int) : Task :=
  if p.policy = SCHED_NORMAL then
    if p.boost_prio > -MAX_PRIORITY_ADJ ∧ switch_time < boost_threshold p then
      { p with boost_prio := p.boost_prio - 1 }
    else p
  else if p.policy = SCHED_BATCH ∨ p.policy = SCHED_IDLE then
    if p.boost_prio > 0 ∧ switch_time < boost_threshold p then
      { p with boost_prio := p.boost_prio - 1 }
    else p
  else p

/- CPU mask primitives (lib/cpumask.c semantics on a NR_CPUS-bit map). -/

/-- cpumask_test_cpu. -/
def cpumask_test_cpu (c : Nat) (m : CpuMask) : Bool := c ∈ m

/-- cpumask_set_cpu. -/
def cpumask_set_cpu (c : Nat) (m : CpuMask) : CpuMask :=
  if c ∈ m then m else c :: m

/-- cpumask_clear_cpu. -/
def cpumask_clear_cpu (c : Nat) (m : CpuMask) : CpuMask :=
  m.filter (fun x => x ≠ c)

/-- cpumask_empty. -/
def cpumask_empty (m : CpuMask) : Bool := m.isEmpty

/-- cpumask_and: intersection, truncated to the NR_CPUS-bit map width
like the fixed-width C bitmaps. -/
def cpumask_and (a b : CpuMask) : CpuMask :=
  (List.range NR_CPUS).filter (fun c => decide (c ∈ a) && decide (c ∈ b))

/-- cpumask_any_and, which is cpumask_first_and: the lowest-numbered CPU
in both masks, or nr_cpu_ids (= NR_CPUS) when the intersection is empty. -/
def cpumask_any_and (a b : CpuMask) : Nat :=
  match (List.range NR_CPUS).find? (fun c => decide (c ∈ a) && decide (c ∈ b)) with
  | some c => c
  | none => NR_CPUS

/-- The per-runqueue bitmap queue (struct bmq in bmq_sched.h): one list
head per priority level plus the bitmap of non-empty levels.  Indices
are Int because the C level index is a plain int. -/
structure Bmq where
  heads : Int → List Task
  bitmap : Int → Bool

/-- Pointwise update of a list-head array. -/
def updHeads (f : Int → List Task) (i : Int) (v : List Task) : Int → List Task :=
  fun j => if j = i then v else f j

/-- Pointwise update of a bitmap. -/
def updBit (f : Int → Bool) (i : Int) (v : Bool) : Int → Bool :=
  fun j => if j = i then v else f j

/-- bmq_find_first_bit, kernel/sched/bmq.c lines 158-163: index of the
first set bit below size, or size when none is set. -/
def bmq_find_first_bit (bm : Int → Bool) (size : Nat) : Nat :=
  match (List.range size).find? (fun i => bm (Int.ofNat i)) with
  | some i => i
  | none => size

/-- bmq_find_next_bit, kernel/sched/bmq.c lines 160-163: index of the
first set bit at or above start and below size, or size. -/
def bmq_find_next_bit (bm : Int → Bool) (size start : Nat) : Nat :=
  match (List.range size).find? (fun i => decide (start ≤ i) && bm (Int.ofNat i)) with
  | some i => i
  | none => size

/-- SCHED_PRIO2WATERMARK, kernel/sched/bmq.c line 155. -/
def SCHED_PRIO2WATERMARK (prio : Int) : Int :=
  ( IDLE_TASK_SCHED_PRIO : Int) - prio + 1

/-- The global watermark map: sched_rq_watermark (per-watermark CPU
sets) and sched_rq_watermark_bitmap, kernel/sched/bmq.c lines 150-153. -/
structure WMap where
  cpus : Int → CpuMask
  bits : Int → Bool

/-- Pointwise update of the watermark CPU-set array. -/
def updCpus (f : Int → CpuMask) (i : Int) (v : CpuMask) : Int → CpuMask :=
  fun j => if j = i then v else f j

/-- Per-CPU runqueue (struct rq), restricted to the fields the embedded
operations read and write. -/
structure RQ where
  queue : Bmq
  watermark : Int
  nr_running : Nat
  clock : Int
  clock_task : Int
  last_ts_switch : Int
  curr : Task
  idle : Task
  skip : Option Task

/-- The state one runqueue operation touches: the runqueue itself plus
the shared watermark map and the global pending mask
(sched_rq_pending_mask, kernel/sched/bmq.c line 101). -/
structure SchedState where
  rq : RQ
  wmap : WMap
  pending : CpuMask

/-- update_sched_rq_watermark, kernel/sched/bmq.c lines 169-211, for
the generic (non-x86) cpumask path with the SMT static branch off:
recompute the watermark from the first non-empty queue level; when it
changed, move this CPU from the old watermark CPU set to the new one
and maintain the global bitmap.  (The BUG_ON for an empty queue bitmap
is a precondition; the idle task is always queued.) -/
def update_sched_rq_watermark (cpu : Nat) (s : SchedState) : SchedState :=
  let watermark := SCHED_PRIO2WATERMARK (bmq_find_first_bit s.rq.queue.bitmap bmq_BITS)
  let last_wm := s.rq.watermark
  if watermark = last_wm then s
  else
    let cleared := cpumask_clear_cpu cpu (s.wmap.cpus last_wm)
    let bits1 := if cpumask_empty cleared then updBit s.wmap.bits last_wm false
                 else s.wmap.bits
    let cpus1 := updCpus s.wmap.cpus last_wm cleared
    let cpus2 := updCpus cpus1 watermark (cpumask_set_cpu cpu (cpus1 watermark))
    let bits2 := updBit bits1 watermark true
    { s with rq := { s.rq with watermark := watermark },
             wmap := { cpus := cpus2, bits := bits2 } }

/-- bmq_add_task, kernel/sched/bmq.c lines 237-255: append at the tail
of its level; at level 0 insert in task-prio order, before the first
task of strictly greater prio. -/
def bmq_add_task (p : Task) (q : Bmq) (idx : Int) : Bmq :=
  if idx ≠ 0 then { q with heads := updHeads q.heads idx (q.heads idx ++ [p]) }
  else
    let l := q.heads 0
    let nl := l.takeWhile (fun t => t.prio ≤ p.prio) ++ p :: l.dropWhile (fun t => t.prio ≤ p.prio)
    { q with heads := updHeads q.heads 0 nl }

/-- rq_first_bmq_task, kernel/sched/bmq.c lines 260-267 (BUG_ON empty
head is a precondition; the idle task is always queued). -/
def rq_first_bmq_task (rq : RQ) : Task :=
  (rq.queue.heads (Int.ofNat (bmq_find_first_bit rq.queue.bitmap bmq_BITS))).headI

/-- resched_curr, kernel/sched/bmq.c lines 714-735, reduced to its
effect on the embedded state: mark the runqueue's current task
need-resched (the polling / IPI distinction is external). -/
def resched_curr (rq : RQ) : RQ :=
  { rq with curr := { rq.curr with need_resched := true } }

/-- check_preempt_curr, kernel/sched/bmq.c lines 737-748.  Pointer
comparisons on task_struct are id comparisons in the model. -/
def check_preempt_curr (s : SchedState) (p : Task) : SchedState :=
  let s1 := if s.rq.curr.prio = MAX_PRIO then { s with rq := resched_curr s.rq } else s
  if (rq_first_bmq_task s1.rq).id = p.id then { s1 with rq := resched_curr s1.rq } else s1

/-- dequeue_task, kernel/sched/bmq.c lines 606-628: unlink the task; if
its level emptied, clear the bitmap bit and republish the watermark;
decrement nr_running; when it crosses 2 to 1, clear this CPU in the
global pending mask.  (PSI, schedstats and the tick dependency are
external hooks.) -/
def dequeue_task (p : Task) (cpu : Nat) (s : SchedState) : SchedState :=
  let l := (s.rq.queue.heads p.bmq_idx).erase p
  let q := { s.rq.queue with heads := updHeads s.rq.queue.heads p.bmq_idx l }
  let s1 := { s with rq := { s.rq with queue := q } }
  let s2 := if l.isEmpty then
              update_sched_rq_watermark cpu
                { s1 with rq := { s1.rq with
                    queue := { q with bitmap := updBit q.bitmap p.bmq_idx false } } }
            else s1
  let nr := s2.rq.nr_running - 1
  let pending := if nr = 1 then cpumask_clear_cpu cpu s2.pending else s2.pending
  { s2 with rq := { s2.rq with nr_running := nr }, pending := pending }

/-- enqueue_task, kernel/sched/bmq.c lines 635-664: cache the computed
queue index in the task, insert it, set the bitmap bit, republish the
watermark, increment nr_running; when it crosses 1 to 2, set this CPU
in the global pending mask.  Returns the state and the updated task. -/
def enqueue_task (p : Task) (cpu : Nat) (s : SchedState) : SchedState × Task :=
  let p' := { p with bmq_idx := task_sched_prio p }
  let q1 := bmq_add_task p' s.rq.queue p'.bmq_idx
  let q2 := { q1 with bitmap := updBit q1.bitmap p'.bmq_idx true }
  let s1 := update_sched_rq_watermark cpu { s with rq := { s.rq with queue := q2 } }
  let nr := s1.rq.nr_running + 1
  let pending := if nr = 2 then cpumask_set_cpu cpu s1.pending else s1.pending
  ({ s1 with rq := { s1.rq with nr_running := nr }, pending := pending }, p')

/-- requeue_task, kernel/sched/bmq.c lines 666-683: recompute the queue
index, move the task, and if the index changed maintain the bitmap and
republish the watermark. -/
def requeue_task (p : Task) (cpu : Nat) (s : SchedState) : SchedState × Task :=
  let idx := task_sched_prio p
  let p' := { p with bmq_idx := idx }
  let l := (s.rq.queue.heads p.bmq_idx).erase p
  let q1 := { s.rq.queue with heads := updHeads s.rq.queue.heads p.bmq_idx l }
  let q2 := bmq_add_task p' q1 idx
  if idx = p.bmq_idx then ({ s with rq := { s.rq with queue := q2 } }, p')
  else
    let bm1 := if (q2.heads p.bmq_idx).isEmpty then updBit q2.bitmap p.bmq_idx false
               else q2.bitmap
    let bm2 := updBit bm1 idx true
    (update_sched_rq_watermark cpu
       { s with rq := { s.rq with queue := { q2 with bitmap := bm2 } } }, p')

/-- requeue_task_lazy, kernel/sched/bmq.c lines 685-705: like
requeue_task but a no-op (returning 0) when the index is unchanged. -/
def requeue_task_lazy (p : Task) (cpu : Nat) (s : SchedState) :
    SchedState × Task × Bool :=
  let idx := task_sched_prio p
  if idx = p.bmq_idx then (s, p, false)
  else
    let p' := { p with bmq_idx := idx }
    let l := (s.rq.queue.heads p.bmq_idx).erase p
    let q1 := { s.rq.queue with heads := updHeads s.rq.queue.heads p.bmq_idx l }
    let q2 := bmq_add_task p' q1 idx
    let bm1 := if (q2.heads p.bmq_idx).isEmpty then updBit q2.bitmap p.bmq_idx false
               else q2.bitmap
    let bm2 := updBit bm1 idx true
    (update_sched_rq_watermark cpu
       { s with rq := { s.rq with queue := { q2 with bitmap := bm2 } } }, p', true)

/-- check_task_changed, kernel/sched/bmq.c lines 3358-3363. -/
def check_task_changed (cpu : Nat) (s : SchedState) (p : Task) : SchedState × Task :=
  if task_on_rq_queued p then
    let r := requeue_task_lazy p cpu s
    if r.2.2 then (check_preempt_curr r.1 r.2.1, r.2.1) else (r.1, r.2.1)
  else (s, p)

/-- update_curr, kernel/sched/bmq.c lines 2388-2398: charge the time the
task ran since last_ran against its slice. -/
def update_curr (rq : RQ) (p : Task) : Task :=
  let ns := rq.clock_task - p.last_ran
  { p with sched_time := p.sched_time + ns,
           time_slice := p.time_slice - ns,
           last_ran := rq.clock_task }

/-- check_curr, kernel/sched/bmq.c lines 2776-2791: for a non-idle task,
account runtime; when the remaining slice is below RESCHED_NS refill it
to SCHED_TIMESLICE_NS and, for non-FIFO queued tasks, requeue (with a
deboost first unless the policy is RR). -/
def check_curr (p : Task) (cpu : Nat) (s : SchedState) : Task × SchedState :=
  if p.id = s.rq.idle.id then (p, s)
  else
    let p1 := update_curr s.rq p
    if p1.time_slice < RESCHED_NS then
      let p2 := { p1 with time_slice := SCHED_TIMESLICE_NS }
      if p2.policy ≠ SCHED_FIFO ∧ task_on_rq_queued p2 then
        let p3 := if p2.policy ≠ SCHED_RR then deboost_task p2 else p2
        let r := requeue_task p3 cpu s
        (r.2, r.1)
      else (p2, s)
    else (p1, s)

/-- do_sched_yield, kernel/sched/bmq.c lines 4523-4554, up to the final
schedule() call: type 0 is a no-op; type 1 deboosts a non-RT caller to
the maximum boost_prio and requeues it; type 2 records the caller as
the runqueue's one-shot skip task when more than one task is runnable. -/
def do_sched_yield (sched_yield_type : Int) (cpu : Nat) (cur : Task)
    (s : SchedState) : Task × SchedState :=
  if sched_yield_type = 0 then (cur, s)
  else if sched_yield_type = 1 then
    if ¬ rt_task cur then
      let cur1 := { cur with boost_prio := MAX_PRIORITY_ADJ }
      let r := requeue_task cur1 cpu s
      (r.2, r.1)
    else (cur, s)
  else if sched_yield_type = 2 then
    if s.rq.nr_running > 1 then (cur, { s with rq := { s.rq with skip := some cur } })
    else (cur, s)
  else (cur, s)

/-- sys_sched_yield, kernel/sched/bmq.c lines 4556-4560: perform
do_sched_yield and return 0. -/
def sys_sched_yield (sched_yield_type : Int) (cpu : Nat) (cur : Task)
    (s : SchedState) : (Task × SchedState) × Int :=
  (do_sched_yield sched_yield_type cpu cur s, 0)

/-- The fragment of sched_fork at kernel/sched/bmq.c lines 1784-1801:
reset the child's boost_prio, halve the running parent's slice, give
the child the halved value, and when that is below RESCHED_NS give the
child a full slice instead and mark the parent for reschedule.  The
parent is rq->curr; division is C truncating division. -/
def sched_fork_tail (rq : RQ) (p : Task) : RQ × Task :=
  let p0 := { p with boost_prio := MAX_PRIORITY_ADJ }
  let curr1 := { rq.curr with time_slice := Int.tdiv rq.curr.time_slice 2 }
  let p1 := { p0 with time_slice := curr1.time_slice }
  let rq1 := { rq with curr := curr1 }
  if p1.time_slice < RESCHED_NS then
    (resched_curr rq1, { p1 with time_slice := SCHED_TIMESLICE_NS })
  else (rq1, p1)

/-- __rt_effective_prio, kernel/sched/bmq.c lines 3367-3373. -/
def __rt_effective_prio (pi_task : Option Task) (prio : Int) : Int :=
  match pi_task with
  | some t => min prio t.prio
  | none => prio

/-- rt_effective_prio, kernel/sched/bmq.c lines 3375-3380;
rt_mutex_get_top_task(p) is passed in as pi_top. -/
def rt_effective_prio (pi_top : Option Task) (prio : Int) : Int :=
  __rt_effective_prio pi_top prio

/-- rt_mutex_setprio, kernel/sched/bmq.c lines 3393-3451: recompute the
effective prio from the donor; bail out early if both the recorded
donor and the prio are unchanged; record the donor; write the prio
unless it is unchanged or the task is the idle task, then requeue via
check_task_changed.  The task_struct pointer recorded in pi_top_task
is modelled by the donor's id. -/
def rt_mutex_setprio (p : Task) (pi_task : Option Task) (cpu : Nat)
    (s : SchedState) : Task × SchedState :=
  let prio := __rt_effective_prio pi_task p.normal_prio
  if p.pi_top_task = pi_task.map Task.id ∧ prio = p.prio then (p, s)
  else
    let p1 := { p with pi_top_task := pi_task.map Task.id }
    if prio = p1.prio then (p1, s)
    else if p1.id = s.rq.idle.id then (p1, s)
    else
      let p2 := { p1 with prio := prio }
      let r := check_task_changed cpu s p2
      (r.2, r.1)

/-- best_mask_cpu, kernel/sched/bmq.c lines 1371-1383: the task's
current CPU when allowed, else the first CPU of the first
topology-affinity ring that intersects the mask.  The C walk runs off
the per-CPU ring array when no ring intersects; the model returns
nr_cpu_ids there (topology initialization makes the last ring cover
every possible CPU, so this does not happen on real states). -/
def best_mask_cpu (cpu : Nat) (cpumask : CpuMask) (rings : List CpuMask) : Nat :=
  if cpumask_test_cpu cpu cpumask then cpu
  else
    match rings with
    | [] => NR_CPUS
    | m :: rest =>
      if cpumask_any_and cpumask m ≥ NR_CPUS then best_mask_cpu cpu cpumask rest
      else cpumask_any_and cpumask m

/-- The while loop of select_task_rq, kernel/sched/bmq.c lines
1401-1408, scanning watermark levels upward from 0.  The C code hops
with bmq_find_next_bit over clear bits and tests level < preempt_level
only at set bits (or at WM_BITS when none remain); scanning every level
and testing the bound at set bits is the same function.  A set level
at or above preempt_level ends the scan. -/
def select_task_rq_loop (chk : CpuMask) (task_cpu : Nat) (wmap : WMap)
    (rings : List CpuMask) (preempt_level : Int) (level : Nat) : Nat :=
  if level < WM_BITS then
    if wmap.bits (Int.ofNat level) then
      if (level : Int) < preempt_level then
        let tmp := cpumask_and chk (wmap.cpus (Int.ofNat level))
        if tmp.isEmpty then
          select_task_rq_loop chk task_cpu wmap rings preempt_level (level + 1)
        else best_mask_cpu task_cpu tmp rings
      else best_mask_cpu task_cpu chk rings
    else select_task_rq_loop chk task_cpu wmap rings preempt_level (level + 1)
  else best_mask_cpu task_cpu chk rings
termination_by WM_BITS - level

/-- select_task_rq, kernel/sched/bmq.c lines 1392-1411: intersect the
task's affinity with the online CPUs (falling back to
select_fallback_rq, passed in as fallback, when empty), then walk the
set watermark levels below the task's preemption watermark, returning
the best CPU of the first level whose CPU set meets the intersection,
else the best CPU of the intersection itself. -/
def select_task_rq (p : Task) (task_cpu : Nat) (online : CpuMask) (wmap : WMap)
    (rings : List CpuMask) (fallback : Nat) : Nat :=
  let chk_mask := cpumask_and p.cpus_mask online
  if chk_mask.isEmpty then fallback
  else
    let preempt_level := SCHED_PRIO2WATERMARK (task_sched_prio p)
    select_task_rq_loop chk_mask task_cpu wmap rings preempt_level 0

/- The sched_setscheduler family. -/

def EINVAL : Int := 22

def EPERM : Int := 1

/-- NICE_TO_PRIO (include/linux/sched/prio.h). -/
def NICE_TO_PRIO (nice : Int) : Int := MAX_RT_PRIO + nice + 20

/-- PRIO_TO_NICE (include/linux/sched/prio.h). -/
def PRIO_TO_NICE (prio : Int) : Int := prio - MAX_RT_PRIO - 20

/-- SETPARAM_POLICY, kernel/sched/bmq.c line 3728. -/
def SETPARAM_POLICY : Int := -1

/-- Modelled from the spec: uapi sched flag constants
(include/uapi/linux/sched.h, not among the sources).
SCHED_RESET_ON_FORK is the legacy policy-flag bit. -/
def SCHED_RESET_ON_FORK : Nat := 0x40000000

/-- Modelled from the spec: SCHED_FLAG_ALL is the union of the known
sched_attr flag bits; any other flag bit is a validation error. -/
def SCHED_FLAG_ALL : Nat := 0x07

/-- struct sched_attr, the fields __sched_setscheduler reads. -/
structure SchedAttr where
  sched_policy : Int
  sched_nice : Int
  sched_priority : Int
  sched_flags : Nat
deriving DecidableEq

/-- The environment of one __sched_setscheduler call: external
predicates (capabilities, rlimit, credentials, the LSM hook), whether
the task is the runqueue's stop task, whether it has an mm (user
task), and rt_mutex_get_top_task(p). -/
structure SetschedEnv where
  user : Bool
  pi : Bool
  capable_sys_nice : Bool
  rlim_rtprio : Int
  same_owner : Bool
  security_retval : Int
  p_is_stop : Bool
  p_has_mm : Bool
  pi_top : Option Task

/-- __setscheduler_params, kernel/sched/bmq.c lines 3730-3754. -/
def __setscheduler_params (p : Task) (attr : SchedAttr) : Task :=
  let policy := if attr.sched_policy = SETPARAM_POLICY then p.policy else attr.sched_policy
  let p1 := { p with policy := policy }
  let p2 := { p1 with static_prio := NICE_TO_PRIO attr.sched_nice }
  let p3 := { p2 with rt_priority := attr.sched_priority }
  { p3 with normal_prio := normal_prio p3 }

/-- __setscheduler, kernel/sched/bmq.c lines 3757-3769. -/
def __setscheduler (p : Task) (attr : SchedAttr) (keep_boost : Bool)
    (pi_top : Option Task) : Task :=
  let p1 := __setscheduler_params p attr
  let p2 := { p1 with prio := normal_prio p1 }
  if keep_boost then { p2 with prio := rt_effective_prio pi_top p2.prio } else p2

/-- The dl_squash_attr constant of __sched_setscheduler,
kernel/sched/bmq.c lines 3791-3796: SCHED_DEADLINE requests are
rewritten to SCHED_FIFO at priority 99 (remaining fields zero). -/
def dl_squash_attr : SchedAttr :=
  { sched_policy := SCHED_FIFO, sched_nice := 0, sched_priority := 99, sched_flags := 0 }

/-- __sched_setscheduler, kernel/sched/bmq.c lines 3787-3960, modelled
as one race-free pass (the goto recheck loop re-runs the function only
when another writer changed p->policy between the two lock regions).
Errors are returned as negative errnos, success as the updated task
and scheduler state. -/
def __sched_setscheduler (p : Task) (attr0 : SchedAttr) (env : SetschedEnv)
    (cpu : Nat) (s : SchedState) : Except Int (Task × SchedState) :=
  let attr := if attr0.sched_policy = SCHED_DEADLINE then dl_squash_attr else attr0
  let newprio := MAX_RT_PRIO - 1 - attr.sched_priority
  let policy0 := attr.sched_policy
  let reset_on_fork := if policy0 < 0 then p.sched_reset_on_fork
                       else decide (attr.sched_flags &&& SCHED_RESET_ON_FORK ≠ 0)
  let policy := if policy0 < 0 then p.policy else policy0
  if 0 ≤ policy0 ∧ SCHED_IDLE < policy0 then .error (-EINVAL)
  else if attr.sched_flags &&& SCHED_FLAG_ALL ≠ attr.sched_flags then .error (-EINVAL)
  else if attr.sched_priority < 0 ∨
     (env.p_has_mm ∧ MAX_USER_RT_PRIO - 1 < attr.sched_priority) ∨
     (¬ env.p_has_mm ∧ MAX_RT_PRIO - 1 < attr.sched_priority) then .error (-EINVAL)
  else if rt_policy policy ≠ decide (attr.sched_priority ≠ 0) then .error (-EINVAL)
  else if env.user ∧ ¬ env.capable_sys_nice ∧ rt_policy policy ∧
     policy ≠ p.policy ∧ env.rlim_rtprio = 0 then .error (-EPERM)
  else if env.user ∧ ¬ env.capable_sys_nice ∧ rt_policy policy ∧
     p.rt_priority < attr.sched_priority ∧
     env.rlim_rtprio < attr.sched_priority then .error (-EPERM)
  else if env.user ∧ ¬ env.capable_sys_nice ∧ ¬ env.same_owner then .error (-EPERM)
  else if env.user ∧ ¬ env.capable_sys_nice ∧ p.sched_reset_on_fork ∧
     ¬ reset_on_fork then .error (-EPERM)
  else if env.user ∧ env.security_retval ≠ 0 then .error env.security_retval
  else if env.p_is_stop then .error (-EINVAL)
  else if policy = p.policy ∧
     ¬ (rt_policy policy ∧ attr.sched_priority ≠ p.rt_priority) ∧
     ¬ (¬ rt_policy policy ∧ NICE_TO_PRIO attr.sched_nice ≠ p.static_prio) then
    .ok ({ p with sched_reset_on_fork := reset_on_fork }, s)
  else
    let p1 := { p with sched_reset_on_fork := reset_on_fork }
    if env.pi ∧ rt_effective_prio env.pi_top newprio = p1.prio then
      .ok (__setscheduler_params p1 attr, s)
    else
      let p2 := __setscheduler p1 attr env.pi env.pi_top
      let r := check_task_changed cpu s p2
      .ok (r.2, r.1)

/- Concrete fixtures used by witnesses and counterexamples. -/

/-- An empty bitmap queue. -/
def emptyBmq : Bmq := { heads := fun _ => [], bitmap := fun _ => false }

/-- A concrete idle task as init_idle leaves it (prio = MAX_PRIO,
bmq_idx = IDLE_TASK_SCHED_PRIO). -/
def idleTask : Task :=
  { (default : Task) with
      id := 1000, prio := MAX_PRIO, on_rq := 1,
      bmq_idx := Int.ofNat IDLE_TASK_SCHED_PRIO }

/-- A bitmap queue holding only the idle task. -/
def idleBmq : Bmq :=
  { heads := fun i => if i = Int.ofNat IDLE_TASK_SCHED_PRIO then [idleTask] else [],
    bitmap := fun i => decide (i = Int.ofNat IDLE_TASK_SCHED_PRIO) }

/-- A freshly initialized runqueue: idle queued, watermark IDLE_WM. -/
def rq0 : RQ :=
  { queue := idleBmq, watermark := IDLE_WM, nr_running := 1, clock := 0,
    clock_task := 0, last_ts_switch := 0, curr := idleTask, idle := idleTask,
    skip := none }

/-- A watermark map consistent with rq0 on CPU 0. -/
def wmap0 : WMap :=
  { cpus := fun w => if w = (IDLE_WM : Int) then [0] else [],
    bits := fun w => decide (w = (IDLE_WM : Int)) }

/-- The scheduler state of CPU 0 right after init. -/
def state0 : SchedState := { rq := rq0, wmap := wmap0, pending := [] }

/-- A concrete nice-0 SCHED_NORMAL task. -/
def normTask : Task :=
  { (default : Task) with
      id := 7, prio := 124, static_prio := 120,
      normal_prio := 124, policy := SCHED_NORMAL, time_slice := SCHED_TIMESLICE_NS }

/-- The nice-0 task with only 150 us of slice left. -/
def normTaskShortSlice : Task := { normTask with time_slice := 150 * 1000 }

/-- A concrete FIFO priority-50 task (effective prio 49). -/
def rtTask : Task :=
  { (default : Task) with
      id := 8, prio := 49, rt_priority := 50,
      normal_prio := 49, policy := SCHED_FIFO, time_slice := SCHED_TIMESLICE_NS }

/-- The nice-0 task, queued at its level (task_sched_prio = 24) with
50 us of slice left. -/
def normTaskC3 : Task :=
  { normTask with on_rq := 1, time_slice := 50 * 1000, bmq_idx := 24 }

/-- A queue holding normTaskC3 and the idle task. -/
def bmqC3 : Bmq :=
  { heads := fun i =>
      if i = (24 : Int) then [normTaskC3]
      else if i = Int.ofNat IDLE_TASK_SCHED_PRIO then [idleTask] else [],
    bitmap := fun i =>
      decide (i = (24 : Int)) || decide (i = Int.ofNat IDLE_TASK_SCHED_PRIO) }

/-- The scheduler state of CPU 0 with normTaskC3 queued. -/
def stateC3 : SchedState :=
  { rq := { rq0 with queue := bmqC3, nr_running := 2, watermark := 25 },
    wmap := { cpus := fun w => if w = (25 : Int) then [0] else [],
              bits := fun w => decide (w = (25 : Int)) },
    pending := [0] }

/-- A level the select_task_rq scan can return from: its bit is set in
the watermark bitmap, it lies strictly below the task's preemption
watermark, and its CPU set meets the task's online affinity. -/
def stq_level_hit (chk : CpuMask) (wmap : WMap) (preempt_level : Int) (l : Nat) : Prop :=
  wmap.bits (Int.ofNat l) = true ∧ (l : Int) < preempt_level ∧
    (cpumask_and chk (wmap.cpus (Int.ofNat l))).isEmpty = false

instance (chk : CpuMask) (wmap : WMap) (preempt_level : Int) (l : Nat) :
    Decidable (stq_level_hit chk wmap preempt_level l) := by
  unfold stq_level_hit
  infer_instance

/-- The nice-0 task allowed on CPUs 0 and 1. -/
def taskC5 : Task := { normTask with cpus_mask := [0, 1] }

/-- All four CPUs online. -/
def onlineAll : CpuMask := [0, 1, 2, 3]

/-- A single topology-affinity ring covering every CPU. -/
def ringsAll : List CpuMask := [[0, 1, 2, 3]]

/-- The watermark-map invariant for one CPU: the cached watermark is
the one derived from the first non-empty queue level, the CPU sits in
its watermark's CPU set and in no other. -/
def wmInvariant (s : SchedState) (cpu : Nat) : Prop :=
  s.rq.watermark =
    SCHED_PRIO2WATERMARK (bmq_find_first_bit s.rq.queue.bitmap bmq_BITS) ∧
  cpu ∈ s.wmap.cpus s.rq.watermark ∧
  ∀ w : Int, w ≠ s.rq.watermark → cpu ∉ s.wmap.cpus w

/-- The sched_attr for the reserved policy value 4 (between BATCH and
IDLE), priority 0. -/
def attrPol4 : SchedAttr :=
  { sched_policy := 4, sched_nice := 0, sched_priority := 0, sched_flags := 0 }

/-- A FIFO request at the out-of-range priority 100. -/
def fifo100 : SchedAttr :=
  { sched_policy := SCHED_FIFO, sched_nice := 0, sched_priority := 100,
    sched_flags := 0 }

/-- A fully permissive set-scheduler environment (privileged caller,
no PI, LSM allows, not the stop task, a user task). -/
def envPermissive : SetschedEnv :=
  { user := true, pi := false, capable_sys_nice := true, rlim_rtprio := 0,
    same_owner := true, security_retval := 0, p_is_stop := false,
    p_has_mm := true, pi_top := none }

/- Theorems.  First, general lemmas about the embedded operations,
shared by several claim theorems. -/

/-- boost_task either leaves the task unchanged or decrements
boost_prio by one, the latter only above the per-policy limit. -/
theorem boost_task_cases (p : Task) (st : Int) :
    boost_task p st = p ∨
    (boost_task p st = { p with boost_prio := p.boost_prio - 1 } ∧
      ((p.policy = SCHED_NORMAL ∧ -MAX_PRIORITY_ADJ < p.boost_prio) ∨
       ((p.policy = SCHED_BATCH ∨ p.policy = SCHED_IDLE) ∧ 0 < p.boost_prio))) := by
  unfold boost_task
  split
  next h1 =>
    split
    next h2 => exact Or.inr ⟨rfl, Or.inl ⟨h1, h2.1⟩⟩
    next => exact Or.inl rfl
  next h1 =>
    split
    next h3 =>
      split
      next h2 => exact Or.inr ⟨rfl, Or.inr ⟨h3, h2.1⟩⟩
      next => exact Or.inl rfl
    next => exact Or.inl rfl

/-- The task returned by requeue_task is the input task with its queue
index recomputed; no other field changes. -/
theorem requeue_task_snd (p : Task) (cpu : Nat) (s : SchedState) :
    (requeue_task p cpu s).2 = { p with bmq_idx := task_sched_prio p } := by
  unfold requeue_task
  dsimp only
  split <;> rfl

@[simp] theorem update_curr_policy (rq : RQ) (p : Task) :
    (update_curr rq p).policy = p.policy := rfl

@[simp] theorem update_curr_on_rq (rq : RQ) (p : Task) :
    (update_curr rq p).on_rq = p.on_rq := rfl

@[simp] theorem update_curr_boost_prio (rq : RQ) (p : Task) :
    (update_curr rq p).boost_prio = p.boost_prio := rfl

@[simp] theorem update_curr_id (rq : RQ) (p : Task) :
    (update_curr rq p).id = p.id := rfl

@[simp] theorem deboost_task_time_slice (p : Task) :
    (deboost_task p).time_slice = p.time_slice := by
  unfold deboost_task
  split <;> rfl

/-- C2: the queue-index function task_sched_prio (kernel/sched/bmq.c
lines 213-219) as the claim states it, amended: it returns 0 whenever
prio < MAX_RT_PRIO, and for a task whose prio and boost_prio lie in
the ranges the scheduler maintains for non-RT tasks it returns
prio - MAX_RT_PRIO + boost_prio, which equals that value clamped to
0..L-1 (the code performs no clamping; on the valid ranges the clamp
is the identity).  The converse of the first part is false, see the
counterexample. -/
theorem c2_task_sched_prio (p : Task) :
    (p.prio < MAX_RT_PRIO → task_sched_prio p = 0) ∧
    ( MAX_RT_PRIO + MAX_PRIORITY_ADJ ≤ p.prio →
      p.prio ≤ MAX_PRIO + MAX_PRIORITY_ADJ - 1 →
      -MAX_PRIORITY_ADJ ≤ p.boost_prio →
      p.boost_prio ≤ MAX_PRIORITY_ADJ →
      task_sched_prio p =
        max 0 (min (p.prio - MAX_RT_PRIO + p.boost_prio) ((bmq_BITS : Int) - 1))) := by
  have hb : ((bmq_BITS : Nat) : Int) - 1 = 48 := by norm_num [bmq_BITS]
  constructor
  · intro h
    simp [task_sched_prio, h]
  · intro h1 h2 h3 h4
    have h0 : ¬ p.prio < MAX_RT_PRIO := by
      simp only [ MAX_RT_PRIO, MAX_PRIORITY_ADJ] at h1 ⊢; omega
    rw [task_sched_prio, if_neg h0, hb]
    rw [min_eq_left, max_eq_right]
    · simp only [ MAX_RT_PRIO, MAX_PRIORITY_ADJ] at h1 h3 ⊢; omega
    · simp only [ MAX_RT_PRIO, MAX_PRIO, NICE_WIDTH, MAX_PRIORITY_ADJ] at h2 h4 ⊢; omega

/-- C2 witness: both parts of c2_task_sched_prio applied at concrete
tasks (an RT task, and a nice-0 task with boost 2). -/
theorem c2_task_sched_prio_witness :
    (rtTask.prio < MAX_RT_PRIO ∧ task_sched_prio rtTask = 0) ∧
    ( MAX_RT_PRIO + MAX_PRIORITY_ADJ ≤ (124 : Int) ∧
      task_sched_prio { normTask with boost_prio := 2 } =
        max 0 (min ({ normTask with boost_prio := 2 }.prio - MAX_RT_PRIO + 2)
          ((bmq_BITS : Int) - 1))) :=
  ⟨⟨by decide, (c2_task_sched_prio rtTask).1 (by decide)⟩,
   ⟨by decide,
    (c2_task_sched_prio { normTask with boost_prio := 2 }).2
      (by decide) (by decide) (by decide) (by decide)⟩⟩

/-- C2 counterexample: the claimed equivalence "task_sched_prio t = 0
iff t.prio < MAX_RT_PRIO" fails: a SCHED_NORMAL task at static_prio
100 (nice -20, so prio = 104) whose boost_prio reached
-MAX_PRIORITY_ADJ maps to queue index 0 although its prio is not
below MAX_RT_PRIO. -/
theorem c2_counterexample :
    task_sched_prio
        { normTask with
            prio := 104, static_prio := 100, normal_prio := 104,
            boost_prio := -MAX_PRIORITY_ADJ } = 0 ∧
    ¬ ({ normTask with
            prio := 104, static_prio := 100, normal_prio := 104,
            boost_prio := -MAX_PRIORITY_ADJ } : Task).prio < MAX_RT_PRIO := by
  constructor
  · decide
  · decide

/-- C9: boost_prio stays in the closed interval from -MAX_PRIORITY_ADJ
to MAX_PRIORITY_ADJ.  boost_task (bmq.c lines 74-92) decrements only
above the per-policy limit (NORMAL: -MAX_PRIORITY_ADJ, BATCH and IDLE:
0) and leaves every other policy untouched; deboost_task (lines 94-98)
increments only below MAX_PRIORITY_ADJ; sched_fork (line 1784) and
yield type 1 (line 4537) assign exactly MAX_PRIORITY_ADJ. -/
theorem c9_boost_bounds (p cur : Task) (switch_time : Int) (cpu : Nat)
    (rq : RQ) (s : SchedState)
    (hb1 : -MAX_PRIORITY_ADJ ≤ p.boost_prio)
    (hb2 : p.boost_prio ≤ MAX_PRIORITY_ADJ) :
    (-MAX_PRIORITY_ADJ ≤ (boost_task p switch_time).boost_prio ∧
      (boost_task p switch_time).boost_prio ≤ MAX_PRIORITY_ADJ) ∧
    (p.policy = SCHED_NORMAL →
      (boost_task p switch_time).boost_prio = p.boost_prio ∨
      ((boost_task p switch_time).boost_prio = p.boost_prio - 1 ∧
        p.boost_prio > -MAX_PRIORITY_ADJ)) ∧
    (p.policy = SCHED_BATCH ∨ p.policy = SCHED_IDLE →
      (boost_task p switch_time).boost_prio = p.boost_prio ∨
      ((boost_task p switch_time).boost_prio = p.boost_prio - 1 ∧
        p.boost_prio > 0)) ∧
    (¬ (p.policy = SCHED_NORMAL ∨ p.policy = SCHED_BATCH ∨ p.policy = SCHED_IDLE) →
      boost_task p switch_time = p) ∧
    (-MAX_PRIORITY_ADJ ≤ (deboost_task p).boost_prio ∧
      (deboost_task p).boost_prio ≤ MAX_PRIORITY_ADJ) ∧
    (p.boost_prio < MAX_PRIORITY_ADJ →
      (deboost_task p).boost_prio = p.boost_prio + 1) ∧
    (MAX_PRIORITY_ADJ ≤ p.boost_prio → deboost_task p = p) ∧
    ((sched_fork_tail rq p).2.boost_prio = MAX_PRIORITY_ADJ) ∧
    (¬ rt_task cur →
      (do_sched_yield 1 cpu cur s).1.boost_prio = MAX_PRIORITY_ADJ) := by
  refine ⟨?_, ?_, ?_, ?_, ?_, ?_, ?_, ?_, ?_⟩
  · rcases boost_task_cases p switch_time with h | ⟨h, hside⟩ <;> rw [h]
    · exact ⟨hb1, hb2⟩
    · simp only
      rcases hside with ⟨_, hgt⟩ | ⟨_, hgt⟩ <;> constructor <;> omega
  · intro hpol
    rcases boost_task_cases p switch_time with h | ⟨h, hside⟩ <;> rw [h]
    · exact Or.inl rfl
    · refine Or.inr ⟨rfl, ?_⟩
      rcases hside with ⟨_, hgt⟩ | ⟨hbad, _⟩
      · exact hgt
      · rcases hbad with hbad | hbad <;>
          simp [hpol, SCHED_NORMAL, SCHED_BATCH, SCHED_IDLE] at hbad
  · intro hpol
    rcases boost_task_cases p switch_time with h | ⟨h, hside⟩ <;> rw [h]
    · exact Or.inl rfl
    · refine Or.inr ⟨rfl, ?_⟩
      rcases hside with ⟨hbad, _⟩ | ⟨_, hgt⟩
      · rcases hpol with hp | hp <;>
          simp [hp, SCHED_NORMAL, SCHED_BATCH, SCHED_IDLE] at hbad
      · exact hgt
  · intro h
    push_neg at h
    unfold boost_task
    rw [if_neg h.1, if_neg (not_or_intro h.2.1 h.2.2)]
  · unfold deboost_task
    split
    · constructor <;> simp <;> omega
    · exact ⟨hb1, hb2⟩
  · intro h
    unfold deboost_task
    rw [if_pos h]
  · intro h
    unfold deboost_task
    rw [if_neg (by omega)]
  · unfold sched_fork_tail resched_curr
    dsimp only
    split <;> rfl
  · intro h
    unfold do_sched_yield
    rw [if_neg (by norm_num), if_pos rfl, if_pos h]
    dsimp only
    rw [requeue_task_snd]

/-- C9 witness: c9_boost_bounds applied to the concrete nice-0 task
(boost 0) with a concrete switch time, runqueue and state. -/
theorem c9_boost_bounds_witness :
    (-MAX_PRIORITY_ADJ ≤ normTask.boost_prio ∧
      normTask.boost_prio ≤ MAX_PRIORITY_ADJ) ∧
    (-MAX_PRIORITY_ADJ ≤ (boost_task normTask 1000).boost_prio ∧
      (boost_task normTask 1000).boost_prio ≤ MAX_PRIORITY_ADJ) ∧
    (sched_fork_tail rq0 normTask).2.boost_prio = MAX_PRIORITY_ADJ :=
  ⟨⟨by decide, by decide⟩,
   (c9_boost_bounds normTask normTask 1000 0 rq0 state0 (by decide) (by decide)).1,
   (c9_boost_bounds normTask normTask 1000 0 rq0 state0 (by decide) (by decide)).2.2.2.2.2.2.2.1⟩

/-- C10: the sched_fork time-slice split, kernel/sched/bmq.c lines
1790-1800.  The running parent's slice is halved in place; the child
receives the halved value, except that when the halved value is below
RESCHED_NS the child instead gets a full SCHED_TIMESLICE_NS and the
parent is marked need-resched. -/
theorem c10_sched_fork_timeslice (rq : RQ) (p : Task) :
    ((sched_fork_tail rq p).1.curr.time_slice = Int.tdiv rq.curr.time_slice 2) ∧
    (Int.tdiv rq.curr.time_slice 2 < RESCHED_NS →
      (sched_fork_tail rq p).2.time_slice = SCHED_TIMESLICE_NS ∧
      (sched_fork_tail rq p).1.curr.need_resched = true) ∧
    (¬ Int.tdiv rq.curr.time_slice 2 < RESCHED_NS →
      (sched_fork_tail rq p).2.time_slice = Int.tdiv rq.curr.time_slice 2 ∧
      (sched_fork_tail rq p).1.curr.need_resched = rq.curr.need_resched) := by
  unfold sched_fork_tail resched_curr
  dsimp only
  refine ⟨?_, ?_, ?_⟩
  · split <;> rfl
  · intro h
    rw [if_pos h]
    exact ⟨rfl, rfl⟩
  · intro h
    rw [if_neg h]
    exact ⟨rfl, rfl⟩

/-- C8: sched_yield, amended.  The syscall always returns 0.  Mode 0
changes nothing.  Mode 1 sets boost_prio to MAX_PRIORITY_ADJ and
requeues, but only for a non-RT caller (rt_task callers are left
untouched, bmq.c line 4536).  Mode 2 records the caller in rq->skip,
but only when nr_running > 1 (bmq.c line 4541). -/
theorem c8_sched_yield (t : Int) (cpu : Nat) (cur : Task) (s : SchedState) :
    (sys_sched_yield t cpu cur s).2 = 0 ∧
    (t = 0 → do_sched_yield t cpu cur s = (cur, s)) ∧
    (t = 1 → ¬ rt_task cur →
      (do_sched_yield t cpu cur s).1.boost_prio = MAX_PRIORITY_ADJ ∧
      do_sched_yield t cpu cur s =
        ((requeue_task { cur with boost_prio := MAX_PRIORITY_ADJ } cpu s).2,
         (requeue_task { cur with boost_prio := MAX_PRIORITY_ADJ } cpu s).1)) ∧
    (t = 1 → rt_task cur → do_sched_yield t cpu cur s = (cur, s)) ∧
    (t = 2 → s.rq.nr_running > 1 →
      do_sched_yield t cpu cur s =
        (cur, { s with rq := { s.rq with skip := some cur } })) ∧
    (t = 2 → ¬ s.rq.nr_running > 1 → do_sched_yield t cpu cur s = (cur, s)) := by
  refine ⟨rfl, ?_, ?_, ?_, ?_, ?_⟩
  · intro h
    unfold do_sched_yield
    rw [if_pos h]
  · intro h hrt
    subst h
    unfold do_sched_yield
    rw [if_neg (by norm_num), if_pos rfl, if_pos hrt]
    dsimp only
    rw [requeue_task_snd]
    exact ⟨rfl, rfl⟩
  · intro h hrt
    subst h
    unfold do_sched_yield
    rw [if_neg (by norm_num), if_pos rfl, if_neg (by simpa using hrt)]
  · intro h hnr
    subst h
    unfold do_sched_yield
    rw [if_neg (by norm_num), if_neg (by norm_num), if_pos rfl, if_pos hnr]
  · intro h hnr
    subst h
    unfold do_sched_yield
    rw [if_neg (by norm_num), if_neg (by norm_num), if_pos rfl, if_neg hnr]

/-- C8 witness: c8_sched_yield for mode 1 on the concrete non-RT
nice-0 task in the initial state. -/
theorem c8_sched_yield_witness :
    (¬ rt_task normTask) ∧
    (do_sched_yield 1 0 normTask state0).1.boost_prio = MAX_PRIORITY_ADJ :=
  ⟨by decide, ((c8_sched_yield 1 0 normTask state0).2.2.1 rfl (by decide)).1⟩

/-- C8 counterexample: the claim as stated fails in two places.  With
the concrete FIFO-50 caller, mode 1 leaves boost_prio at 0 instead of
setting it to its maximum, and in the initial state (nr_running = 1)
mode 2 leaves rq->skip unset. -/
theorem c8_counterexample :
    (do_sched_yield 1 0 rtTask state0).1.boost_prio ≠ MAX_PRIORITY_ADJ ∧
    (do_sched_yield 2 0 rtTask state0).2.rq.skip = none := by
  constructor
  · decide
  · decide

/-- C3: check_curr, kernel/sched/bmq.c lines 2776-2791.  The idle task
is untouched.  Otherwise runtime is charged (update_curr) and, when
the remaining slice is below RESCHED_NS, the slice is replenished to
SCHED_TIMESLICE_NS; a FIFO task is never requeued, an unqueued task is
not requeued, a queued RR task is requeued with boost_prio unchanged,
and a queued NORMAL or BATCH task is deboosted (by +1, saturating at
MAX_PRIORITY_ADJ) and then requeued. -/
theorem c3_check_curr (p : Task) (cpu : Nat) (s : SchedState) :
    (p.id = s.rq.idle.id → check_curr p cpu s = (p, s)) ∧
    (p.id ≠ s.rq.idle.id →
      (¬ (update_curr s.rq p).time_slice < RESCHED_NS →
        check_curr p cpu s = (update_curr s.rq p, s)) ∧
      ((update_curr s.rq p).time_slice < RESCHED_NS →
        (check_curr p cpu s).1.time_slice = SCHED_TIMESLICE_NS ∧
        (p.policy = SCHED_FIFO →
          check_curr p cpu s =
            ({ update_curr s.rq p with time_slice := SCHED_TIMESLICE_NS }, s)) ∧
        (¬ task_on_rq_queued p →
          check_curr p cpu s =
            ({ update_curr s.rq p with time_slice := SCHED_TIMESLICE_NS }, s)) ∧
        (p.policy = SCHED_RR → task_on_rq_queued p →
          (check_curr p cpu s).1.boost_prio = p.boost_prio ∧
          (check_curr p cpu s).2 =
            (requeue_task { update_curr s.rq p with time_slice := SCHED_TIMESLICE_NS }
              cpu s).1) ∧
        ((p.policy = SCHED_NORMAL ∨ p.policy = SCHED_BATCH) → task_on_rq_queued p →
          (check_curr p cpu s).1.boost_prio =
            (if p.boost_prio < MAX_PRIORITY_ADJ then p.boost_prio + 1
             else p.boost_prio) ∧
          (check_curr p cpu s).2 =
            (requeue_task
              (deboost_task
                { update_curr s.rq p with time_slice := SCHED_TIMESLICE_NS })
              cpu s).1))) := by
  unfold check_curr
  constructor
  · intro h
    rw [if_pos h]
  · intro hne
    rw [if_neg hne]
    dsimp only
    constructor
    · intro h
      rw [if_neg h]
    · intro h
      rw [if_pos h]
      refine ⟨?_, ?_, ?_, ?_, ?_⟩
      · split
        next =>
          rw [requeue_task_snd]
          dsimp only
          split
          next => rw [deboost_task_time_slice]
          next => rfl
        next => rfl
      · intro hpol
        rw [if_neg (by simp [hpol, task_on_rq_queued])]
      · intro hq
        rw [if_neg (fun hc => hq (by simpa [task_on_rq_queued] using hc.2))]
      · intro hpol hq
        rw [if_pos ⟨by simp [hpol, SCHED_RR, SCHED_FIFO],
                    by simpa [task_on_rq_queued] using hq⟩]
        dsimp only
        rw [if_neg (by simp [hpol])]
        rw [requeue_task_snd]
        exact ⟨rfl, rfl⟩
      · intro hpol hq
        have hpol1 : ¬ ({ update_curr s.rq p with
            time_slice := SCHED_TIMESLICE_NS } : Task).policy = SCHED_FIFO := by
          rcases hpol with hp | hp <;>
            simp [hp, SCHED_NORMAL, SCHED_BATCH, SCHED_FIFO]
        have hpol2 : ({ update_curr s.rq p with
            time_slice := SCHED_TIMESLICE_NS } : Task).policy ≠ SCHED_RR := by
          rcases hpol with hp | hp <;>
            simp [hp, SCHED_NORMAL, SCHED_BATCH, SCHED_RR]
        rw [if_pos ⟨hpol1, by simpa [task_on_rq_queued] using hq⟩]
        dsimp only
        rw [if_pos hpol2, requeue_task_snd]
        refine ⟨?_, rfl⟩
        unfold deboost_task
        dsimp only
        split
        next hlt =>
          rw [if_pos (by simpa using hlt)]
          simp
        next hlt =>
          rw [if_neg (by simpa using hlt)]
          simp

/-- C3 witness: c3_check_curr on the concrete nice-0 queued task whose
slice ran out (update_curr leaves 50 us) in a state where it is
queued: the slice is replenished and the task deboosted by one. -/
theorem c3_check_curr_witness :
    (normTaskC3.id ≠ stateC3.rq.idle.id) ∧
    ((update_curr stateC3.rq normTaskC3).time_slice < RESCHED_NS) ∧
    ((normTaskC3.policy = SCHED_NORMAL ∨ normTaskC3.policy = SCHED_BATCH) ∧
      task_on_rq_queued normTaskC3) ∧
    ((check_curr normTaskC3 0 stateC3).1.boost_prio =
      (if normTaskC3.boost_prio < MAX_PRIORITY_ADJ then normTaskC3.boost_prio + 1
       else normTaskC3.boost_prio) ∧
     (check_curr normTaskC3 0 stateC3).2 =
      (requeue_task
        (deboost_task
          { update_curr stateC3.rq normTaskC3 with time_slice := SCHED_TIMESLICE_NS })
        0 stateC3).1) :=
  ⟨by decide, by decide, ⟨by decide, by decide⟩,
   (((c3_check_curr normTaskC3 0 stateC3).2 (by decide)).2 (by decide)).2.2.2.2
     (by decide) (by decide)⟩

/-- check_task_changed returns the task unchanged except possibly for
its cached queue index. -/
theorem check_task_changed_fields (cpu : Nat) (s : SchedState) (q : Task) :
    (check_task_changed cpu s q).2.prio = q.prio ∧
    (check_task_changed cpu s q).2.normal_prio = q.normal_prio ∧
    (check_task_changed cpu s q).2.pi_top_task = q.pi_top_task := by
  unfold check_task_changed requeue_task_lazy
  dsimp only
  split
  · split
    · simp
    · simp
  · exact ⟨rfl, rfl, rfl⟩

/-- C7, amended: rt_mutex_setprio, kernel/sched/bmq.c lines 3393-3451,
for every task other than the runqueue's idle task: afterwards the
effective prio equals min(normal_prio, donor prio) (normal_prio alone
without a donor), so it is bounded by both; normal_prio is untouched;
the donor is recorded in pi_top_task; and the call is a no-op when the
recorded donor and the resulting prio are both unchanged.  For the
idle task the code records the donor but deliberately skips the prio
write (lines 3439-3443), so "for every task" fails: see the
counterexample. -/
theorem c7_rt_mutex_setprio (p : Task) (pi_task : Option Task) (cpu : Nat)
    (s : SchedState) (hidle : p.id ≠ s.rq.idle.id) :
    ((rt_mutex_setprio p pi_task cpu s).1.prio =
      __rt_effective_prio pi_task p.normal_prio) ∧
    ((rt_mutex_setprio p pi_task cpu s).1.prio ≤ p.normal_prio) ∧
    (∀ d, pi_task = some d → (rt_mutex_setprio p pi_task cpu s).1.prio ≤ d.prio) ∧
    ((rt_mutex_setprio p pi_task cpu s).1.normal_prio = p.normal_prio) ∧
    ((rt_mutex_setprio p pi_task cpu s).1.pi_top_task = pi_task.map Task.id) ∧
    (p.pi_top_task = pi_task.map Task.id ∧
        __rt_effective_prio pi_task p.normal_prio = p.prio →
      rt_mutex_setprio p pi_task cpu s = (p, s)) := by
  have key : ((rt_mutex_setprio p pi_task cpu s).1.prio =
        __rt_effective_prio pi_task p.normal_prio) ∧
      ((rt_mutex_setprio p pi_task cpu s).1.normal_prio = p.normal_prio) ∧
      ((rt_mutex_setprio p pi_task cpu s).1.pi_top_task = pi_task.map Task.id) ∧
      (p.pi_top_task = pi_task.map Task.id ∧
          __rt_effective_prio pi_task p.normal_prio = p.prio →
        rt_mutex_setprio p pi_task cpu s = (p, s)) := by
    unfold rt_mutex_setprio
    dsimp only
    split
    next hcond =>
      exact ⟨hcond.2.symm, rfl, hcond.1, fun _ => rfl⟩
    next hcond =>
      split
      · rename_i heq
        exact ⟨heq.symm, rfl, rfl, fun hc => absurd hc hcond⟩
      · rename_i heq
        have hf := check_task_changed_fields cpu s
          { p with pi_top_task := pi_task.map Task.id,
                   prio := __rt_effective_prio pi_task p.normal_prio }
        exact ⟨hf.1, hf.2.1, hf.2.2, fun hc => absurd hc hcond⟩
  refine ⟨key.1, ?_, ?_, key.2.1, key.2.2.1, key.2.2.2⟩
  · rw [key.1]
    cases pi_task with
    | none => exact le_refl _
    | some d => exact min_le_left _ _
  · intro d hd
    rw [key.1, hd]
    exact min_le_right _ _

/-- C7 witness: c7_rt_mutex_setprio boosting the concrete nice-0 task
with the FIFO-50 donor in the initial state. -/
theorem c7_rt_mutex_setprio_witness :
    (normTask.id ≠ state0.rq.idle.id) ∧
    (rt_mutex_setprio normTask (some rtTask) 0 state0).1.prio =
      __rt_effective_prio (some rtTask) normTask.normal_prio ∧
    (rt_mutex_setprio normTask (some rtTask) 0 state0).1.pi_top_task =
      (some rtTask).map Task.id :=
  ⟨by decide,
   (c7_rt_mutex_setprio normTask (some rtTask) 0 state0 (by decide)).1,
   (c7_rt_mutex_setprio normTask (some rtTask) 0 state0 (by decide)).2.2.2.2.1⟩

/-- C7 counterexample: the claim as stated ("for every task t") fails
at the idle task.  Boosting the queued idle task of the initialized
CPU-0 runqueue with the FIFO-50 donor records the donor but leaves
idle's prio at MAX_PRIO (the branch at bmq.c lines 3439-3443 skips the
prio write), strictly above both its normal_prio and the donor's prio,
so the claimed bound prio ≤ min(normal_prio, donor.prio) is violated. -/
theorem c7_counterexample :
    (rt_mutex_setprio idleTask (some rtTask) 0 state0).1.prio = MAX_PRIO ∧
    ¬ ((rt_mutex_setprio idleTask (some rtTask) 0 state0).1.prio ≤
        min idleTask.normal_prio rtTask.prio) ∧
    (rt_mutex_setprio idleTask (some rtTask) 0 state0).1.pi_top_task =
      some rtTask.id := by
  refine ⟨?_, ?_, ?_⟩
  · decide
  · decide
  · decide

@[simp] theorem update_wm_pending (cpu : Nat) (s : SchedState) :
    (update_sched_rq_watermark cpu s).pending = s.pending := by
  unfold update_sched_rq_watermark
  dsimp only
  split <;> rfl

@[simp] theorem update_wm_nr_running (cpu : Nat) (s : SchedState) :
    (update_sched_rq_watermark cpu s).rq.nr_running = s.rq.nr_running := by
  unfold update_sched_rq_watermark
  dsimp only
  split <;> rfl

theorem mem_cpumask_set_self (c : Nat) (m : CpuMask) : c ∈ cpumask_set_cpu c m := by
  unfold cpumask_set_cpu
  split
  · assumption
  · exact List.mem_cons_self _ _

theorem not_mem_cpumask_clear_self (c : Nat) (m : CpuMask) :
    c ∉ cpumask_clear_cpu c m := by
  simp [cpumask_clear_cpu]

/-- C4: the pending-mask invariant across enqueue_task (bmq.c lines
647-650) and dequeue_task (lines 619-622): assuming the CPU's pending
bit currently encodes nr_running being at least 2, it still does after
an enqueue, and after a dequeue of a queued task (nr_running at least
1). -/
theorem c4_pending_mask (p : Task) (cpu : Nat) (s : SchedState)
    (hinv : cpu ∈ s.pending ↔ 2 ≤ s.rq.nr_running) :
    (cpu ∈ (enqueue_task p cpu s).1.pending ↔
      2 ≤ (enqueue_task p cpu s).1.rq.nr_running) ∧
    (1 ≤ s.rq.nr_running →
      (cpu ∈ (dequeue_task p cpu s).pending ↔
        2 ≤ (dequeue_task p cpu s).rq.nr_running)) := by
  constructor
  · unfold enqueue_task
    dsimp only
    rw [update_wm_pending, update_wm_nr_running]
    dsimp only
    by_cases h2 : s.rq.nr_running + 1 = 2
    · rw [if_pos h2]
      exact iff_of_true (mem_cpumask_set_self cpu s.pending) (by omega)
    · rw [if_neg h2]
      rw [hinv]
      omega
  · intro h1
    unfold dequeue_task
    dsimp only
    split
    · rw [update_wm_pending, update_wm_nr_running]
      dsimp only
      by_cases h2 : s.rq.nr_running - 1 = 1
      · rw [if_pos h2]
        exact iff_of_false (not_mem_cpumask_clear_self cpu s.pending) (by omega)
      · rw [if_neg h2]
        rw [hinv]
        omega
    · dsimp only
      by_cases h2 : s.rq.nr_running - 1 = 1
      · rw [if_pos h2]
        exact iff_of_false (not_mem_cpumask_clear_self cpu s.pending) (by omega)
      · rw [if_neg h2]
        rw [hinv]
        omega

/-- C4 witness: c4_pending_mask on the initial state of CPU 0
(nr_running 1, pending bit clear): enqueueing the concrete nice-0 task
takes nr_running to 2 and the invariant is preserved. -/
theorem c4_pending_mask_witness :
    ((0 : Nat) ∈ state0.pending ↔ 2 ≤ state0.rq.nr_running) ∧
    ((0 : Nat) ∈ (enqueue_task normTask 0 state0).1.pending ↔
      2 ≤ (enqueue_task normTask 0 state0).1.rq.nr_running) :=
  ⟨by decide, (c4_pending_mask normTask 0 state0 (by decide)).1⟩

@[simp] theorem bmq_add_task_bitmap (p : Task) (q : Bmq) (idx : Int) :
    (bmq_add_task p q idx).bitmap = q.bitmap := by
  unfold bmq_add_task
  split <;> rfl

/-- update_sched_rq_watermark establishes wmInvariant, assuming only
that the CPU currently sits exactly in the set of its cached
watermark. -/
theorem update_wm_invariant (cpu : Nat) (s : SchedState)
    (hcur : cpu ∈ s.wmap.cpus s.rq.watermark)
    (hoth : ∀ w : Int, w ≠ s.rq.watermark → cpu ∉ s.wmap.cpus w) :
    wmInvariant (update_sched_rq_watermark cpu s) cpu := by
  unfold wmInvariant update_sched_rq_watermark
  dsimp only
  split
  next heq => exact ⟨heq.symm, hcur, hoth⟩
  next heq =>
    refine ⟨rfl, ?_, ?_⟩
    · simp only [updCpus, if_pos rfl]
      exact mem_cpumask_set_self _ _
    · intro w hw
      simp only [updCpus]
      rw [if_neg hw]
      by_cases hl : w = s.rq.watermark
      · rw [if_pos hl]
        exact not_mem_cpumask_clear_self _ _
      · rw [if_neg hl]
        exact hoth w hl

/-- C1: after enqueue_task, dequeue_task or requeue_task on this CPU's
runqueue, the cached watermark equals the watermark derived from the
first non-empty bitmap level, the CPU is in watermark_cpus of that
watermark and in no other slot — provided the same held before the
operation.  (With SMT off, slot 0 is never populated.) -/
theorem c1_watermark (p : Task) (cpu : Nat) (s : SchedState)
    (hwm : s.rq.watermark =
      SCHED_PRIO2WATERMARK (bmq_find_first_bit s.rq.queue.bitmap bmq_BITS))
    (hcur : cpu ∈ s.wmap.cpus s.rq.watermark)
    (hoth : ∀ w : Int, w ≠ s.rq.watermark → cpu ∉ s.wmap.cpus w) :
    wmInvariant (enqueue_task p cpu s).1 cpu ∧
    wmInvariant (dequeue_task p cpu s) cpu ∧
    wmInvariant (requeue_task p cpu s).1 cpu := by
  refine ⟨?_, ?_, ?_⟩
  · unfold enqueue_task
    dsimp only
    exact update_wm_invariant cpu _ hcur hoth
  · unfold dequeue_task
    dsimp only
    split
    · exact update_wm_invariant cpu _ hcur hoth
    · exact ⟨hwm, hcur, hoth⟩
  · unfold requeue_task
    dsimp only
    split
    · refine ⟨?_, hcur, hoth⟩
      rw [hwm]
      rw [bmq_add_task_bitmap]
    · exact update_wm_invariant cpu _ hcur hoth

/-- C1 witness: c1_watermark on the freshly initialized state of CPU 0
(only idle queued, watermark = IDLE_WM, CPU 0 exactly in slot
IDLE_WM), enqueueing the concrete nice-0 task. -/
theorem c1_watermark_witness :
    (state0.rq.watermark =
      SCHED_PRIO2WATERMARK (bmq_find_first_bit state0.rq.queue.bitmap bmq_BITS)) ∧
    ((0 : Nat) ∈ state0.wmap.cpus state0.rq.watermark) ∧
    (∀ w : Int, w ≠ state0.rq.watermark → (0 : Nat) ∉ state0.wmap.cpus w) ∧
    wmInvariant (enqueue_task normTask 0 state0).1 0 := by
  have hoth : ∀ w : Int, w ≠ state0.rq.watermark → (0 : Nat) ∉ state0.wmap.cpus w := by
    intro w hw
    have hw' : w ≠ ((IDLE_WM : Nat) : Int) := hw
    show (0 : Nat) ∉ (if w = ((IDLE_WM : Nat) : Int) then [0] else [])
    rw [if_neg hw']
    simp
  exact ⟨by decide, by decide, hoth,
    (c1_watermark normTask 0 state0 (by decide) (by decide) hoth).1⟩

/-- Any request failing one of the four -EINVAL validation checks of
__sched_setscheduler (policy above SCHED_IDLE, priority out of range,
or an RT/priority mismatch) is rejected with -EINVAL before any
mutation. -/
theorem setsched_invalid (p : Task) (attr : SchedAttr) (env : SetschedEnv)
    (cpu : Nat) (s : SchedState)
    (hdl : ¬ attr.sched_policy = SCHED_DEADLINE)
    (hh : rt_policy (if attr.sched_policy < 0 then p.policy else attr.sched_policy)
            ≠ decide (attr.sched_priority ≠ 0) ∨
          attr.sched_priority < 0 ∨
          99 < attr.sched_priority ∨
          (0 ≤ attr.sched_policy ∧ SCHED_IDLE < attr.sched_policy)) :
    __sched_setscheduler p attr env cpu s = .error (-EINVAL) := by
  unfold __sched_setscheduler
  rw [if_neg hdl]
  by_cases h1 : 0 ≤ attr.sched_policy ∧ SCHED_IDLE < attr.sched_policy
  · rw [if_pos h1]
  · rw [if_neg h1]
    by_cases h2 : attr.sched_flags &&& SCHED_FLAG_ALL ≠ attr.sched_flags
    · rw [if_pos h2]
    · rw [if_neg h2]
      by_cases h3 : attr.sched_priority < 0 ∨
          (env.p_has_mm ∧ MAX_USER_RT_PRIO - 1 < attr.sched_priority) ∨
          (¬ env.p_has_mm ∧ MAX_RT_PRIO - 1 < attr.sched_priority)
      · rw [if_pos h3]
      · rw [if_neg h3]
        by_cases h4 : rt_policy
            (if attr.sched_policy < 0 then p.policy else attr.sched_policy)
              ≠ decide (attr.sched_priority ≠ 0)
        · rw [if_pos h4]
        · exfalso
          rcases hh with hh | hh | hh | hh
          · exact h4 hh
          · exact h3 (Or.inl hh)
          · refine h3 ?_
            by_cases hm : env.p_has_mm
            · exact Or.inr (Or.inl ⟨hm, by simp only [ MAX_USER_RT_PRIO]; omega⟩)
            · exact Or.inr (Or.inr ⟨hm, by simp only [ MAX_RT_PRIO]; omega⟩)
          · exact h1 hh

/-- C6, amended: __sched_setscheduler (bmq.c lines 3787-3960) performs
all validation before any mutation (every error path returns before
the task or runqueue are written).  A DEADLINE request behaves exactly
as a FIFO priority-99 request; a FIFO/RR request with priority outside
1..99 and a NORMAL/BATCH/IDLE request with nonzero priority fail with
-EINVAL, as does any policy above SCHED_IDLE other than DEADLINE.
The reserved policy value 4 is however not rejected (see the
counterexample), so "out-of-range policy" holds only in the sense of
policy > SCHED_IDLE. -/
theorem c6_setscheduler (p : Task) (attr : SchedAttr) (env : SetschedEnv)
    (cpu : Nat) (s : SchedState) :
    (attr.sched_policy = SCHED_DEADLINE →
      __sched_setscheduler p attr env cpu s =
        __sched_setscheduler p dl_squash_attr env cpu s) ∧
    (rt_policy attr.sched_policy →
      (attr.sched_priority < 1 ∨ 99 < attr.sched_priority) →
      __sched_setscheduler p attr env cpu s = .error (-EINVAL)) ∧
    ((attr.sched_policy = SCHED_NORMAL ∨ attr.sched_policy = SCHED_BATCH ∨
        attr.sched_policy = SCHED_IDLE) →
      attr.sched_priority ≠ 0 →
      __sched_setscheduler p attr env cpu s = .error (-EINVAL)) ∧
    (SCHED_IDLE < attr.sched_policy → attr.sched_policy ≠ SCHED_DEADLINE →
      __sched_setscheduler p attr env cpu s = .error (-EINVAL)) := by
  refine ⟨?_, ?_, ?_, ?_⟩
  · intro h
    unfold __sched_setscheduler
    rw [if_pos h]
    exact rfl
  · intro hrt hbad
    have hpol : attr.sched_policy = SCHED_FIFO ∨ attr.sched_policy = SCHED_RR := by
      simpa [rt_policy] using hrt
    have hge : ¬ attr.sched_policy < 0 := by
      rcases hpol with h | h <;> simp [h, SCHED_FIFO, SCHED_RR]
    refine setsched_invalid p attr env cpu s ?_ ?_
    · rcases hpol with h | h <;>
        simp [h, SCHED_FIFO, SCHED_RR, SCHED_DEADLINE]
    · rcases hbad with hlow | hhigh
      · by_cases hneg : attr.sched_priority < 0
        · exact Or.inr (Or.inl hneg)
        · have hz : attr.sched_priority = 0 := by omega
          refine Or.inl ?_
          rw [if_neg hge]
          simp [hrt, hz]
      · exact Or.inr (Or.inr (Or.inl hhigh))
  · intro hpol hbad
    have hge : ¬ attr.sched_policy < 0 := by
      rcases hpol with h | h | h <;>
        simp [h, SCHED_NORMAL, SCHED_BATCH, SCHED_IDLE]
    refine setsched_invalid p attr env cpu s ?_ ?_
    · rcases hpol with h | h | h <;>
        simp [h, SCHED_NORMAL, SCHED_BATCH, SCHED_IDLE, SCHED_DEADLINE]
    · by_cases hneg : attr.sched_priority < 0
      · exact Or.inr (Or.inl hneg)
      · refine Or.inl ?_
        rw [if_neg hge]
        have hfalse : rt_policy attr.sched_policy = false := by
          rcases hpol with h | h | h <;>
            simp [h, rt_policy, SCHED_NORMAL, SCHED_BATCH, SCHED_IDLE,
              SCHED_FIFO, SCHED_RR]
        simp [hfalse, hbad]
  · intro hgt hdl
    refine setsched_invalid p attr env cpu s hdl ?_
    refine Or.inr (Or.inr (Or.inr ⟨?_, hgt⟩))
    simp only [SCHED_IDLE] at hgt
    omega

/-- C6 witness: c6_setscheduler rejecting a FIFO request at priority
100 for the concrete nice-0 task in a permissive environment. -/
theorem c6_setscheduler_witness :
    (rt_policy (100 : Int) = false ∧ rt_policy fifo100.sched_policy = true) ∧
    (99 : Int) < fifo100.sched_priority ∧
    __sched_setscheduler normTask fifo100 envPermissive 0 state0 =
      .error (-EINVAL) :=
  ⟨⟨by decide, by decide⟩, by decide,
   (c6_setscheduler normTask fifo100 envPermissive 0 state0).2.1 (by decide)
     (Or.inr (by decide))⟩

/-- C6 counterexample: the reserved policy value 4 with priority 0 is
accepted: validation does not reject it, the call succeeds and writes
policy 4 into the task, contradicting "an out-of-range policy returns
a validation error with no scheduler state changed". -/
theorem c6_counterexample :
    (attrPol4.sched_policy ≠ SCHED_NORMAL ∧ attrPol4.sched_policy ≠ SCHED_FIFO ∧
     attrPol4.sched_policy ≠ SCHED_RR ∧ attrPol4.sched_policy ≠ SCHED_BATCH ∧
     attrPol4.sched_policy ≠ SCHED_IDLE ∧ attrPol4.sched_policy ≠ SCHED_DEADLINE) ∧
    (__sched_setscheduler normTask attrPol4 envPermissive 0 state0).toOption.map
      (fun r => r.1.policy) = some 4 := by
  constructor
  · exact ⟨by decide, by decide, by decide, by decide, by decide, by decide⟩
  · rfl

theorem mem_cpumask_and (c : Nat) (a b : CpuMask) :
    c ∈ cpumask_and a b ↔ c < NR_CPUS ∧ c ∈ a ∧ c ∈ b := by
  simp [cpumask_and, List.mem_filter, List.mem_range]

/-- When cpumask_any_and returns a real CPU number, that CPU is in both
masks. -/
theorem cpumask_any_and_mem (a b : CpuMask)
    (h : cpumask_any_and a b < NR_CPUS) :
    cpumask_any_and a b ∈ a ∧ cpumask_any_and a b ∈ b := by
  unfold cpumask_any_and at h ⊢
  cases hf : (List.range NR_CPUS).find? (fun c => decide (c ∈ a) && decide (c ∈ b)) with
  | none =>
    simp only [hf] at h
    exact absurd h (lt_irrefl _)
  | some c =>
    simp only [hf]
    have hp := List.find?_some hf
    simpa using hp

/-- When some CPU below NR_CPUS is in both masks, cpumask_any_and
returns a real CPU number. -/
theorem cpumask_any_and_lt (a b : CpuMask) (c : Nat) (hc : c < NR_CPUS)
    (ha : c ∈ a) (hb : c ∈ b) : cpumask_any_and a b < NR_CPUS := by
  unfold cpumask_any_and
  cases hf : (List.range NR_CPUS).find? (fun c => decide (c ∈ a) && decide (c ∈ b)) with
  | none =>
    have := List.find?_eq_none.mp hf c (List.mem_range.mpr hc)
    simp [ha, hb] at this
  | some x =>
    have hx := List.mem_of_find?_eq_some hf
    simpa using List.mem_range.mp hx

/-- best_mask_cpu prefers the task's own CPU when it is allowed. -/
theorem best_mask_cpu_self (cpu : Nat) (m : CpuMask) (rings : List CpuMask)
    (h : cpu ∈ m) : best_mask_cpu cpu m rings = cpu := by
  unfold best_mask_cpu
  rw [if_pos (by simpa [cpumask_test_cpu] using h)]

/-- best_mask_cpu returns a member of the mask whenever some ring
intersects it. -/
theorem best_mask_cpu_mem (cpu : Nat) (m : CpuMask) (rings : List CpuMask)
    (hcov : ∃ r ∈ rings, cpumask_any_and m r < NR_CPUS) :
    best_mask_cpu cpu m rings ∈ m := by
  induction rings with
  | nil => simp at hcov
  | cons r rest ih =>
    unfold best_mask_cpu
    by_cases hc : cpumask_test_cpu cpu m = true
    · rw [if_pos hc]
      simpa [cpumask_test_cpu] using hc
    · rw [if_neg hc]
      dsimp only
      by_cases hhit : cpumask_any_and m r ≥ NR_CPUS
      · rw [if_pos hhit]
        apply ih
        rcases hcov with ⟨r', hr', hlt⟩
        rcases List.mem_cons.mp hr' with rfl | hr'
        · exact absurd hlt (by omega)
        · exact ⟨r', hr', hlt⟩
      · rw [if_neg hhit]
        exact (cpumask_any_and_mem m r (by omega)).1

/-- When the task's CPU is not allowed, best_mask_cpu returns the first
CPU of the first ring that meets the mask. -/
theorem best_mask_cpu_first_ring (cpu : Nat) (m : CpuMask) (r1 : List CpuMask)
    (r2 : CpuMask) (rest : List CpuMask) (hcpu : cpu ∉ m)
    (hmiss : ∀ r ∈ r1, ¬ cpumask_any_and m r < NR_CPUS)
    (hhit : cpumask_any_and m r2 < NR_CPUS) :
    best_mask_cpu cpu m (r1 ++ r2 :: rest) = cpumask_any_and m r2 := by
  induction r1 with
  | nil =>
    unfold best_mask_cpu
    rw [if_neg (by simpa [cpumask_test_cpu] using hcpu)]
    simp only [List.nil_append]
    rw [if_neg (by omega)]
  | cons r r1' ih =>
    unfold best_mask_cpu
    rw [if_neg (by simpa [cpumask_test_cpu] using hcpu)]
    simp only [List.cons_append]
    rw [if_pos (by have := hmiss r (List.mem_cons_self r r1'); omega)]
    exact ih (fun q hq => hmiss q (List.mem_cons_of_mem _ hq))

/-- The select_task_rq scan, arriving at start with every hit at or
beyond L, returns the best CPU of level L's intersection. -/
theorem select_loop_found (chk : CpuMask) (tc : Nat) (wmap : WMap)
    (rings : List CpuMask) (preempt : Int) (L : Nat) (hLw : L < WM_BITS)
    (hhit : stq_level_hit chk wmap preempt L) :
    ∀ n start, L - start = n → start ≤ L →
    (∀ l, start ≤ l → l < L → ¬ stq_level_hit chk wmap preempt l) →
    select_task_rq_loop chk tc wmap rings preempt start =
      best_mask_cpu tc (cpumask_and chk (wmap.cpus (Int.ofNat L))) rings := by
  intro n
  induction n with
  | zero =>
    intro start h0 hle hmiss
    have hsl : start = L := by omega
    subst hsl
    unfold select_task_rq_loop
    rw [if_pos hLw, if_pos hhit.1, if_pos hhit.2.1,
        if_neg (by simp only [hhit.2.2]; decide)]
  | succ k ih =>
    intro start h0 hle hmiss
    have hlt : start < L := by omega
    unfold select_task_rq_loop
    rw [if_pos (show start < WM_BITS by omega)]
    by_cases hb : wmap.bits (Int.ofNat start) = true
    · rw [if_pos hb]
      have hpl : (start : Int) < preempt :=
        lt_trans (by exact_mod_cast hlt) hhit.2.1
      rw [if_pos hpl]
      have hemp : (cpumask_and chk (wmap.cpus (Int.ofNat start))).isEmpty = true := by
        by_contra hcne
        exact hmiss start le_rfl hlt ⟨hb, hpl, by simpa using hcne⟩
      rw [if_pos hemp]
      exact ih (start + 1) (by omega) (by omega)
        (fun l hl1 hl2 => hmiss l (by omega) hl2)
    · rw [if_neg hb]
      exact ih (start + 1) (by omega) (by omega)
        (fun l hl1 hl2 => hmiss l (by omega) hl2)

/-- The select_task_rq scan with no hit at all falls back to the best
CPU of the whole affinity-online intersection. -/
theorem select_loop_none (chk : CpuMask) (tc : Nat) (wmap : WMap)
    (rings : List CpuMask) (preempt : Int) :
    ∀ n start, WM_BITS - start = n →
    (∀ l, start ≤ l → l < WM_BITS → ¬ stq_level_hit chk wmap preempt l) →
    select_task_rq_loop chk tc wmap rings preempt start =
      best_mask_cpu tc chk rings := by
  intro n
  induction n with
  | zero =>
    intro start h0 hmiss
    unfold select_task_rq_loop
    rw [if_neg (show ¬ start < WM_BITS by omega)]
  | succ k ih =>
    intro start h0 hmiss
    have hlt : start < WM_BITS := by omega
    unfold select_task_rq_loop
    rw [if_pos hlt]
    by_cases hb : wmap.bits (Int.ofNat start) = true
    · rw [if_pos hb]
      by_cases hpl : (start : Int) < preempt
      · rw [if_pos hpl]
        have hemp : (cpumask_and chk (wmap.cpus (Int.ofNat start))).isEmpty = true := by
          by_contra hcne
          exact hmiss start le_rfl hlt ⟨hb, hpl, by simpa using hcne⟩
        rw [if_pos hemp]
        exact ih (start + 1) (by omega)
          (fun l hl1 hl2 => hmiss l (by omega) hl2)
      · rw [if_neg hpl]
    · rw [if_neg hb]
      exact ih (start + 1) (by omega)
        (fun l hl1 hl2 => hmiss l (by omega) hl2)

/-- C5: select_task_rq, kernel/sched/bmq.c lines 1392-1411, for a task
whose affinity meets the online mask, with topology rings that include
a ring covering every CPU: the scan visits the set watermark levels
strictly below the task's preemption watermark in increasing order and
returns best_mask_cpu of the first such level whose CPU set meets
cpus_mask ∩ online — a CPU of that intersection, the task's own CPU
when it belongs to it; when no level qualifies, it returns
best_mask_cpu of cpus_mask ∩ online itself.  best_mask_cpu prefers
task_cpu and otherwise takes the first CPU of the first
topology-affinity ring that meets the mask. -/
theorem c5_select_task_rq (p : Task) (task_cpu : Nat) (online : CpuMask)
    (wmap : WMap) (rings : List CpuMask) (fallback : Nat)
    (hne : cpumask_and p.cpus_mask online ≠ [])
    (hcov : ∃ r ∈ rings, ∀ c, c < NR_CPUS → c ∈ r) :
    (∀ L : Nat, L < WM_BITS →
      stq_level_hit (cpumask_and p.cpus_mask online) wmap
        (SCHED_PRIO2WATERMARK (task_sched_prio p)) L →
      (∀ l, l < L → ¬ stq_level_hit (cpumask_and p.cpus_mask online) wmap
        (SCHED_PRIO2WATERMARK (task_sched_prio p)) l) →
      select_task_rq p task_cpu online wmap rings fallback =
        best_mask_cpu task_cpu
          (cpumask_and (cpumask_and p.cpus_mask online)
            (wmap.cpus (Int.ofNat L))) rings ∧
      select_task_rq p task_cpu online wmap rings fallback ∈
        cpumask_and (cpumask_and p.cpus_mask online) (wmap.cpus (Int.ofNat L)) ∧
      (task_cpu ∈ cpumask_and (cpumask_and p.cpus_mask online)
          (wmap.cpus (Int.ofNat L)) →
        select_task_rq p task_cpu online wmap rings fallback = task_cpu)) ∧
    ((∀ l, l < WM_BITS → ¬ stq_level_hit (cpumask_and p.cpus_mask online) wmap
        (SCHED_PRIO2WATERMARK (task_sched_prio p)) l) →
      select_task_rq p task_cpu online wmap rings fallback =
        best_mask_cpu task_cpu (cpumask_and p.cpus_mask online) rings ∧
      select_task_rq p task_cpu online wmap rings fallback ∈
        cpumask_and p.cpus_mask online ∧
      (task_cpu ∈ cpumask_and p.cpus_mask online →
        select_task_rq p task_cpu online wmap rings fallback = task_cpu)) ∧
    (∀ (m : CpuMask) (r1 : List CpuMask) (r2 : CpuMask) (rest : List CpuMask),
      task_cpu ∉ m → (∀ r ∈ r1, ¬ cpumask_any_and m r < NR_CPUS) →
      cpumask_any_and m r2 < NR_CPUS →
      best_mask_cpu task_cpu m (r1 ++ r2 :: rest) = cpumask_any_and m r2) := by
  have hsel : select_task_rq p task_cpu online wmap rings fallback =
      select_task_rq_loop (cpumask_and p.cpus_mask online) task_cpu wmap rings
        (SCHED_PRIO2WATERMARK (task_sched_prio p)) 0 := by
    unfold select_task_rq
    rw [if_neg (by simpa using hne)]
  have hmask_cov : ∀ m : CpuMask, m ≠ [] → (∀ c ∈ m, c < NR_CPUS) →
      ∃ r ∈ rings, cpumask_any_and m r < NR_CPUS := by
    intro m hm hsub
    rcases List.exists_mem_of_ne_nil m hm with ⟨c, hc⟩
    rcases hcov with ⟨r, hr, hfull⟩
    exact ⟨r, hr, cpumask_any_and_lt m r c (hsub c hc) hc (hfull c (hsub c hc))⟩
  refine ⟨?_, ?_, ?_⟩
  · intro L hLw hhit hmiss
    have heq := select_loop_found (cpumask_and p.cpus_mask online) task_cpu wmap
      rings (SCHED_PRIO2WATERMARK (task_sched_prio p)) L hLw hhit L 0 rfl
      (by omega) (fun l _ h2 => hmiss l h2)
    rw [hsel, heq]
    have hsub : ∀ c ∈ cpumask_and (cpumask_and p.cpus_mask online)
        (wmap.cpus (Int.ofNat L)), c < NR_CPUS :=
      fun c hc => ((mem_cpumask_and c _ _).mp hc).1
    have hmne : cpumask_and (cpumask_and p.cpus_mask online)
        (wmap.cpus (Int.ofNat L)) ≠ [] := by
      have := hhit.2.2
      simpa [List.isEmpty_iff] using this
    refine ⟨rfl, best_mask_cpu_mem _ _ _ (hmask_cov _ hmne hsub), ?_⟩
    intro htc
    exact best_mask_cpu_self _ _ _ htc
  · intro hmiss
    have heq := select_loop_none (cpumask_and p.cpus_mask online) task_cpu wmap
      rings (SCHED_PRIO2WATERMARK (task_sched_prio p)) WM_BITS 0 rfl
      (fun l _ h2 => hmiss l h2)
    rw [hsel, heq]
    have hsub : ∀ c ∈ cpumask_and p.cpus_mask online, c < NR_CPUS :=
      fun c hc => ((mem_cpumask_and c _ _).mp hc).1
    refine ⟨rfl, best_mask_cpu_mem _ _ _ (hmask_cov _ hne hsub), ?_⟩
    intro htc
    exact best_mask_cpu_self _ _ _ htc
  · intro m r1 r2 rest h1 h2 h3
    exact best_mask_cpu_first_ring task_cpu m r1 r2 rest h1 h2 h3

/-- C5 witness: c5_select_task_rq for the nice-0 task allowed on CPUs
0 and 1, all CPUs online, the init watermark map (every CPU idle at
IDLE_WM = level 1) and one all-CPU ring: level 1 is the first hit and
the chosen CPU lies in the intersection. -/
theorem c5_select_task_rq_witness :
    (cpumask_and taskC5.cpus_mask onlineAll ≠ []) ∧
    stq_level_hit (cpumask_and taskC5.cpus_mask onlineAll) wmap0
      (SCHED_PRIO2WATERMARK (task_sched_prio taskC5)) 1 ∧
    select_task_rq taskC5 0 onlineAll wmap0 ringsAll 0 ∈
      cpumask_and (cpumask_and taskC5.cpus_mask onlineAll)
        (wmap0.cpus (Int.ofNat 1)) :=
  ⟨by decide, by decide,
   ((c5_select_task_rq taskC5 0 onlineAll wmap0 ringsAll 0 (by decide)
      (by decide)).1 1 (by decide) (by decide) (by decide)).2.1⟩

/-- C10 witness: c10_sched_fork_timeslice at a parent whose remaining
slice is 150 us, whose half (75 us) is below the 100 us threshold. -/
theorem c10_sched_fork_timeslice_witness :
    (Int.tdiv ({ rq0 with curr := normTaskShortSlice }).curr.time_slice 2 < RESCHED_NS) ∧
    (sched_fork_tail { rq0 with curr := normTaskShortSlice } normTask).2.time_slice =
      SCHED_TIMESLICE_NS ∧
    (sched_fork_tail { rq0 with curr := normTaskShortSlice } normTask).1.curr.need_resched =
      true :=
  ⟨by decide,
   (c10_sched_fork_timeslice { rq0 with curr := normTaskShortSlice } normTask).2.1
     (by decide)⟩

end BMQ
